import Mathlib

/-!
Shallow embedding of the fixed-duration audio capture shim
(src/vendor/audio_capture.c) and proofs about its buffering policy,
lifecycle operations and defensive null handling.

Modelling conventions:
* A C session handle (AudioCapture*) is an Option: none is the NULL /
  invalid handle, some c is a live session.
* Samples are an arbitrary type α: the code only copies samples
  (memcpy), it never computes with their float values, so every theorem
  holds uniformly in the sample type.
* The pre-allocated sample array is a List α of fixed length
  MAX_SAMPLES; memcpy into it at an offset is modelled by memWrite,
  which splices the copied data over the old contents.
* The vendored miniaudio backend is not part of the sources; following
  the specification it is treated as an opaque collaborator: the outcome
  of ma_device_start is a Bool parameter, and the device handle is
  abstracted by a device_running flag (set when streaming starts,
  cleared by ma_device_stop).
* C int counters are Nat where the code keeps them non-negative
  (sample_count, callback_count); the caller-supplied capacity
  max_samples stays Int because the code compares it with 0.
* frameCount is a Nat.  In C the guard sample_count + frameCount <
  MAX_SAMPLES is evaluated in 32-bit unsigned arithmetic; since
  sample_count stays below 960000 and a frame count is the backend's
  period size (far below 2^32 - 960000), that sum never wraps for any
  delivery the backend can make, so Nat addition models the C
  expressions exactly over the modelled inputs.
-/

namespace AudioCaptureModel

/-- Buffer capacity in samples: 60 seconds at 16000 samples per second
(the C macro MAX_SAMPLES). -/
def MAX_SAMPLES : Nat := 16000 * 60

/-- The session record (struct AudioCapture).  The ma_device field is
modelled from the spec by the single flag device_running, since the
backend library is outside the sources. -/
structure AudioCapture (α : Type) where
  buffer : List α
  sample_count : Nat
  callback_count : Nat
  recording : Bool
  device_running : Bool
deriving DecidableEq

variable {α : Type}

/-- Model of memcpy(buf + offset, data, data.length * sizeof float):
the slice of buf starting at offset is overwritten with data. -/
def memWrite (buf : List α) (offset : Nat) (data : List α) : List α :=
  buf.take offset ++ data ++ buf.drop (offset + data.length)

/-- data_callback:  no-op when the handle is NULL or the session is not
recording; otherwise, when pInput is non-null and sample_count +
frameCount is strictly below MAX_SAMPLES, frameCount samples are copied
to the buffer at index sample_count, sample_count advances by frameCount
and callback_count increments; otherwise the batch is dropped whole. -/
def data_callback (cap : Option (AudioCapture α)) (pInput : Option (List α))
    (frameCount : Nat) : Option (AudioCapture α) :=
  match cap with
  | none => none
  | some c =>
    if c.recording then
      match pInput with
      | some input =>
        if c.sample_count + frameCount < MAX_SAMPLES then
          some { c with
            buffer := memWrite c.buffer c.sample_count (input.take frameCount)
            sample_count := c.sample_count + frameCount
            callback_count := c.callback_count + 1 }
        else some c
      | none => some c
    else some c

/-- audio_capture_create: allocOk abstracts both mallocs succeeding,
deviceOk the ma_device_init outcome, and mem is the (uninitialised)
content of the freshly malloc-ed sample array.  On any failure the
function returns NULL after releasing what it allocated. -/
def audio_capture_create (allocOk deviceOk : Bool) (mem : List α) :
    Option (AudioCapture α) :=
  if allocOk && deviceOk then
    some { buffer := mem
           sample_count := 0
           callback_count := 0
           recording := false
           device_running := false }
  else none

/-- audio_capture_start: returns -1 on a NULL handle; otherwise resets
both counters, sets recording, then asks the backend to start streaming
(outcome backendOk).  On backend failure recording is cleared again and
-1 is returned; on success 0. -/
def audio_capture_start (cap : Option (AudioCapture α)) (backendOk : Bool) :
    Option (AudioCapture α) × Int :=
  match cap with
  | none => (none, -1)
  | some c =>
    if backendOk then
      (some { c with
        sample_count := 0
        callback_count := 0
        recording := true
        device_running := true }, 0)
    else
      (some { c with
        sample_count := 0
        callback_count := 0
        recording := false }, -1)

/-- audio_capture_stop: returns 0 on a NULL handle.  Otherwise clears
recording, halts the device, and when the caller passed a non-null
buffer (bufPresent) and a positive capacity, copies
min(sample_count, max_samples) samples out of the front of the buffer.
The result is (new handle state, returned count, samples written to the
caller buffer — none when no copy occurred). -/
def audio_capture_stop (cap : Option (AudioCapture α)) (bufPresent : Bool)
    (max_samples : Int) : Option (AudioCapture α) × Int × Option (List α) :=
  match cap with
  | none => (none, 0, none)
  | some c =>
    let c1 := { c with recording := false, device_running := false }
    let count : Int := c.sample_count
    if bufPresent ∧ max_samples > 0 then
      let to_copy : Int := if count < max_samples then count else max_samples
      (some c1, count, some (c.buffer.take to_copy.toNat))
    else
      (some c1, count, none)

/-- audio_capture_get_callback_count: 0 on a NULL handle. -/
def audio_capture_get_callback_count (cap : Option (AudioCapture α)) : Int :=
  match cap with
  | none => 0
  | some c => c.callback_count

/-- audio_capture_destroy: the Bool records whether any teardown
(device uninit, frees) was performed; on a NULL handle nothing is done. -/
def audio_capture_destroy (cap : Option (AudioCapture α)) : Bool :=
  match cap with
  | none => false
  | some _ => true

/-- One externally triggerable operation on a session handle. -/
inductive Op (α : Type) where
  | start : Bool → Op α
  | stop : Bool → Int → Op α
  | data : Option (List α) → Nat → Op α

/-- The handle state after one operation. -/
def step (cap : Option (AudioCapture α)) : Op α → Option (AudioCapture α)
  | .start ok => (audio_capture_start cap ok).1
  | .stop bp ms => (audio_capture_stop cap bp ms).1
  | .data pin f => data_callback cap pin f

/-- The handle state after a sequence of operations. -/
def run (cap : Option (AudioCapture α)) (ops : List (Op α)) :
    Option (AudioCapture α) :=
  ops.foldl step cap

/-- A sequence of backend deliveries, each with a non-null input of
exactly frameCount = batch length samples. -/
def deliverAll (cap : Option (AudioCapture α)) (batches : List (List α)) :
    Option (AudioCapture α) :=
  batches.foldl (fun s b => data_callback s (some b) b.length) cap

/-- A small concrete recording session used to instantiate theorems. -/
def demo : AudioCapture Int :=
  { buffer := List.replicate 8 0
    sample_count := 0
    callback_count := 0
    recording := true
    device_running := true }

/-- A concrete recording session one sample short of the capacity bound. -/
def demoFull : AudioCapture Int :=
  { buffer := List.replicate 8 0
    sample_count := 959999
    callback_count := 7
    recording := true
    device_running := true }

/-- A full-size recording session right after start: the buffer has the
real 960000-slot capacity and both counters are zero. -/
def cEx : AudioCapture Int :=
  { buffer := List.replicate MAX_SAMPLES 0
    sample_count := 0
    callback_count := 0
    recording := true
    device_running := true }

/-- A batch of exactly 960000 frames. -/
def batchEx : List Int := List.replicate 960000 1

lemma data_callback_accepted (c : AudioCapture α) (input : List α) (f : Nat)
    (hrec : c.recording = true) (h : c.sample_count + f < MAX_SAMPLES) :
    data_callback (some c) (some input) f =
      some { c with
        buffer := memWrite c.buffer c.sample_count (input.take f)
        sample_count := c.sample_count + f
        callback_count := c.callback_count + 1 } := by
  simp [data_callback, hrec, h]

lemma data_callback_rejected (c : AudioCapture α) (input : List α) (f : Nat)
    (h : ¬ c.sample_count + f < MAX_SAMPLES) :
    data_callback (some c) (some input) f = some c := by
  by_cases hrec : c.recording <;> simp [data_callback, hrec, h]

lemma data_callback_null_input (c : AudioCapture α) (f : Nat) :
    data_callback (some c) none f = some c := by
  by_cases hrec : c.recording <;> simp [data_callback, hrec]

lemma stop_eq (c : AudioCapture α) (bp : Bool) (ms : Int) :
    audio_capture_stop (some c) bp ms =
      (some { c with recording := false, device_running := false },
       (c.sample_count : Int),
       if bp ∧ ms > 0 then
         some (c.buffer.take
           (if (c.sample_count : Int) < ms then (c.sample_count : Int) else ms).toNat)
       else none) := by
  by_cases h : (bp : Prop) ∧ ms > 0 <;> simp [audio_capture_stop, h]

/-- C4: start on a valid session always resets sampleCount and
callbackCount to zero; on backend success it sets recording and returns
0, on backend failure recording ends up false and -1 is returned; in
both cases the session handle stays valid (some). -/
theorem c4_start_resets_counters (c : AudioCapture α) (backendOk : Bool) :
    audio_capture_start (some c) backendOk =
      (some { c with
         sample_count := 0
         callback_count := 0
         recording := backendOk
         device_running := (backendOk || c.device_running) },
       if backendOk then 0 else -1) := by
  cases backendOk <;> rfl

/-- C9: when the backend refuses to start streaming, start still leaves
both counters at zero (they were reset before the backend attempt), with
recording false and -1 returned, so previously captured data is no
longer readable. -/
theorem c9_failed_start_counters_zero (c : AudioCapture α) :
    audio_capture_start (some c) false =
      (some { c with
         sample_count := 0
         callback_count := 0
         recording := false }, -1) := rfl

/-- C8: on a NULL handle every public entry point degrades gracefully:
stop returns 0 and writes nothing, getCallbackCount returns 0, destroy
performs no teardown, and no session state exists to be mutated (the
handle component of every result is still none). -/
theorem c8_null_handle_graceful (α : Type) (bp ok : Bool) (ms : Int)
    (pin : Option (List α)) (f : Nat) :
    audio_capture_stop (α := α) none bp ms = (none, 0, none) ∧
    audio_capture_get_callback_count (α := α) none = 0 ∧
    audio_capture_destroy (α := α) none = false ∧
    (audio_capture_start (α := α) none ok).1 = none ∧
    data_callback (α := α) none pin f = none :=
  ⟨rfl, rfl, rfl, rfl, rfl⟩

/-- C10: a data callback with a NULL input leaves a recording session
completely unchanged: nothing is appended and neither counter moves. -/
theorem c10_null_input_no_change (c : AudioCapture α) (f : Nat)
    (hrec : c.recording = true) :
    data_callback (some c) none f = some c :=
  data_callback_null_input c f

/-- Witness for C10 at a concrete recording session. -/
theorem c10_null_input_no_change_witness :
    demo.recording = true ∧ data_callback (some demo) none 5 = some demo :=
  ⟨rfl, c10_null_input_no_change demo 5 rfl⟩

/-- C2: a batch whose frame count would push sampleCount beyond the
960000-sample capacity is dropped whole: the session (buffer,
sampleCount, callbackCount) is returned unchanged. -/
theorem c2_overflow_batch_dropped (c : AudioCapture α) (pin : Option (List α))
    (f : Nat) (hrec : c.recording = true)
    (hover : MAX_SAMPLES < c.sample_count + f) :
    data_callback (some c) pin f = some c := by
  have h : ¬ c.sample_count + f < MAX_SAMPLES := by omega
  cases pin with
  | none => exact data_callback_null_input c f
  | some input => exact data_callback_rejected c input f h

/-- Witness for C2: a session holding 959999 samples receives a 2-frame
batch, which would overflow, and the session comes back unchanged. -/
theorem c2_overflow_batch_dropped_witness :
    demoFull.recording = true ∧ MAX_SAMPLES < demoFull.sample_count + 2 ∧
    data_callback (some demoFull) (some [1, 2]) 2 = some demoFull :=
  ⟨rfl, by decide, c2_overflow_batch_dropped demoFull (some [1, 2]) 2 rfl (by decide)⟩

/-- Modelled from the spec: the vendored backend library (miniaudio) is
not among the sources, so its device handle is abstracted by the
device_running flag; this projection reads whether the device is
currently streaming (set by a successful ma_device_start, cleared by
ma_device_stop). -/
def deviceStreaming (c : AudioCapture α) : Bool := c.device_running

/-- A concrete valid session that is not recording. -/
def demoStopped : AudioCapture Int :=
  { buffer := [4, 5, 6]
    sample_count := 2
    callback_count := 1
    recording := false
    device_running := false }

/-- C7: stop on a valid session that is not recording still halts the
device and returns the sampleCount captured since the last start, and a
second stop returns that same count. -/
theorem c7_stop_idempotent (c : AudioCapture α) (bp bp2 : Bool) (ms ms2 : Int)
    (hrec : c.recording = false) :
    ∃ c1, (audio_capture_stop (some c) bp ms).1 = some c1 ∧
      c1.recording = false ∧ deviceStreaming c1 = false ∧
      (audio_capture_stop (some c) bp ms).2.1 = (c.sample_count : Int) ∧
      (audio_capture_stop (some c1) bp2 ms2).2.1 = (c.sample_count : Int) := by
  refine ⟨{ c with recording := false, device_running := false }, ?_, rfl, rfl, ?_, ?_⟩
  · rw [stop_eq]
  · rw [stop_eq]
  · rw [stop_eq]

/-- Witness for C7 at a concrete stopped session. -/
theorem c7_stop_idempotent_witness :
    demoStopped.recording = false ∧
    (∃ c1, (audio_capture_stop (some demoStopped) true 10).1 = some c1 ∧
      c1.recording = false ∧ deviceStreaming c1 = false ∧
      (audio_capture_stop (some demoStopped) true 10).2.1
          = (demoStopped.sample_count : Int) ∧
      (audio_capture_stop (some c1) false 0).2.1
          = (demoStopped.sample_count : Int)) :=
  ⟨rfl, c7_stop_idempotent demoStopped true false 10 0 rfl⟩

/-- C5: stop sets recording to false and always returns the true
sampleCount; when a non-null output
buffer and a positive capacity are supplied it hands back exactly
min(sampleCount, outCapacity) samples, namely the first that many
entries of the buffer; with a null buffer or non-positive capacity
nothing is written out. -/
theorem c5_stop_readout (c : AudioCapture α) (bp : Bool) (ms : Int)
    (hlen : c.sample_count ≤ c.buffer.length) :
    (audio_capture_stop (some c) bp ms).1
        = some { c with recording := false, device_running := false } ∧
    (audio_capture_stop (some c) bp ms).2.1 = (c.sample_count : Int) ∧
    (bp = true → 0 < ms →
      (audio_capture_stop (some c) bp ms).2.2
          = some (c.buffer.take (min c.sample_count ms.toNat)) ∧
      (c.buffer.take (min c.sample_count ms.toNat)).length
          = min c.sample_count ms.toNat) ∧
    (bp = false ∨ ms ≤ 0 → (audio_capture_stop (some c) bp ms).2.2 = none) := by
  refine ⟨by rw [stop_eq], by rw [stop_eq], ?_, ?_⟩
  · intro hbp hms
    subst hbp
    have hsel : ((if (c.sample_count : Int) < ms then (c.sample_count : Int)
        else ms)).toNat = min c.sample_count ms.toNat := by
      split <;> omega
    constructor
    · rw [stop_eq, if_pos ⟨rfl, hms⟩, hsel]
    · rw [List.length_take]
      omega
  · intro h
    have hneg : ¬((bp : Prop) ∧ ms > 0) := by
      rintro ⟨h1, h2⟩
      rcases h with h | h
      · rw [h] at h1; cases h1
      · omega
    rw [stop_eq, if_neg hneg]

/-- Witness for C5 at a concrete session with outCapacity 1 smaller than
sampleCount 2. -/
theorem c5_stop_readout_witness :
    demoStopped.sample_count ≤ demoStopped.buffer.length ∧
    ((audio_capture_stop (some demoStopped) true 1).1
        = some { demoStopped with recording := false, device_running := false } ∧
     (audio_capture_stop (some demoStopped) true 1).2.1
        = (demoStopped.sample_count : Int) ∧
     (true = true → 0 < (1 : Int) →
       (audio_capture_stop (some demoStopped) true 1).2.2
           = some (demoStopped.buffer.take (min demoStopped.sample_count (1 : Int).toNat)) ∧
       (demoStopped.buffer.take (min demoStopped.sample_count (1 : Int).toNat)).length
           = min demoStopped.sample_count (1 : Int).toNat) ∧
     (true = false ∨ (1 : Int) ≤ 0 →
       (audio_capture_stop (some demoStopped) true 1).2.2 = none)) :=
  ⟨by decide, c5_stop_readout demoStopped true 1 (by decide)⟩

/-- C1 counterexample: a freshly started full-capacity recording session
(sampleCount 0) is delivered a batch of exactly 960000 frames, so
sampleCount + frameCount equals the 960000-sample capacity; the claim
says the batch is accepted, but the code drops it: the session comes
back unchanged with sampleCount still 0. -/
theorem c1_boundary_batch_dropped :
    cEx.recording = true ∧
    cEx.buffer.length = MAX_SAMPLES ∧
    cEx.sample_count = 0 ∧
    cEx.sample_count + batchEx.length = 960000 ∧
    MAX_SAMPLES = 960000 ∧
    data_callback (some cEx) (some batchEx) batchEx.length = some cEx := by
  have hlen : batchEx.length = 960000 := by
    unfold batchEx
    exact List.length_replicate 960000 1
  have hmax : MAX_SAMPLES = 960000 := rfl
  have h0 : cEx.sample_count = 0 := rfl
  refine ⟨rfl, List.length_replicate MAX_SAMPLES 0, rfl, ?_, hmax, ?_⟩
  · rw [hlen, h0]
  · apply data_callback_rejected
    rw [hlen, hmax, h0]
    omega

/-- C1 (amended): while recording, a non-null batch is accepted exactly
when sampleCount + frameCount is strictly below the 960000-sample
capacity; then its frames are written starting at index sampleCount,
sampleCount advances by frameCount and callbackCount increments by
one. -/
theorem c1_append_below_capacity (c : AudioCapture α) (input : List α)
    (hrec : c.recording = true)
    (hfit : c.sample_count + input.length < MAX_SAMPLES) :
    data_callback (some c) (some input) input.length =
      some { c with
        buffer := c.buffer.take c.sample_count ++ input
                    ++ c.buffer.drop (c.sample_count + input.length)
        sample_count := c.sample_count + input.length
        callback_count := c.callback_count + 1 } := by
  rw [data_callback_accepted c input input.length hrec hfit]
  simp [memWrite, List.take_length]

/-- Witness for the amended C1: a 3-frame batch lands at the front of a
fresh 8-slot session and both counters move as stated. -/
theorem c1_append_below_capacity_witness :
    demo.recording = true ∧ demo.sample_count + 3 < MAX_SAMPLES ∧
    data_callback (some demo) (some [1, 2, 3]) 3 =
      some { buffer := [1, 2, 3, 0, 0, 0, 0, 0]
             sample_count := 3
             callback_count := 1
             recording := true
             device_running := true } :=
  ⟨rfl, by decide, c1_append_below_capacity demo [1, 2, 3] rfl (by decide)⟩

lemma data_callback_not_recording (c : AudioCapture α) (pin : Option (List α))
    (f : Nat) (h : c.recording = false) :
    data_callback (some c) pin f = some c := by
  cases pin <;> simp [data_callback, h]

lemma step_preserves_le (cap : Option (AudioCapture α)) (op : Op α)
    (h : ∀ c0, cap = some c0 → c0.sample_count ≤ MAX_SAMPLES)
    (c : AudioCapture α) (hc : step cap op = some c) :
    c.sample_count ≤ MAX_SAMPLES := by
  cases cap with
  | none =>
    cases op with
    | start ok => simp [step, audio_capture_start] at hc
    | stop bp ms => simp [step, audio_capture_stop] at hc
    | data pin f => simp [step, data_callback] at hc
  | some c0 =>
    have h0 : c0.sample_count ≤ MAX_SAMPLES := h c0 rfl
    cases op with
    | start ok =>
      cases ok <;> simp [step, audio_capture_start] at hc <;>
        simp [← hc, Nat.zero_le]
    | stop bp ms =>
      have hs : step (some c0) (Op.stop bp ms) =
          some { c0 with recording := false, device_running := false } := by
        simp [step, stop_eq]
      rw [hs] at hc
      simp at hc
      simp [← hc]
      exact h0
    | data pin f =>
      cases pin with
      | none =>
        rw [step, data_callback_null_input] at hc
        simp at hc
        simp [← hc]
        exact h0
      | some input =>
        by_cases hrec : c0.recording = true
        · by_cases hacc : c0.sample_count + f < MAX_SAMPLES
          · rw [step, data_callback_accepted c0 input f hrec hacc] at hc
            simp at hc
            simp [← hc]
            omega
          · rw [step, data_callback_rejected c0 input f hacc] at hc
            simp at hc
            simp [← hc]
            exact h0
        · rw [step, data_callback_not_recording c0 _ f
            (Bool.not_eq_true c0.recording ▸ hrec)] at hc
          simp at hc
          simp [← hc]
          exact h0

lemma run_preserves_le (ops : List (Op α)) (cap : Option (AudioCapture α))
    (h : ∀ c0, cap = some c0 → c0.sample_count ≤ MAX_SAMPLES)
    (c : AudioCapture α) (hc : run cap ops = some c) :
    c.sample_count ≤ MAX_SAMPLES := by
  induction ops generalizing cap with
  | nil => exact h c hc
  | cons op ops ih =>
    exact ih (step cap op) (fun c0 h0 => step_preserves_le cap op h c0 h0) hc

/-- C3: along every sequence of create/start/stop/dataAvailable
operations, every reachable session state keeps sampleCount at or below
the 960000-sample capacity. -/
theorem c3_sample_count_never_exceeds (allocOk deviceOk : Bool) (mem : List α)
    (ops : List (Op α)) (c : AudioCapture α)
    (h : run (audio_capture_create allocOk deviceOk mem) ops = some c) :
    c.sample_count ≤ MAX_SAMPLES := by
  apply run_preserves_le ops _ _ c h
  intro c0 hc0
  unfold audio_capture_create at hc0
  by_cases hok : (allocOk && deviceOk) = true
  · rw [if_pos hok] at hc0
    simp at hc0
    simp [← hc0, Nat.zero_le]
  · rw [if_neg hok] at hc0
    cases hc0

/-- The session state reached in the C3 witness run. -/
def demoRun : AudioCapture Int :=
  { buffer := [5, 6, 0, 0]
    sample_count := 2
    callback_count := 1
    recording := true
    device_running := true }

/-- Witness for C3: create, start, then one accepted 2-frame delivery
reaches a state with sampleCount 2 ≤ 960000. -/
theorem c3_sample_count_never_exceeds_witness :
    run (audio_capture_create true true ([0, 0, 0, 0] : List Int))
        [Op.start true, Op.data (some [5, 6]) 2] = some demoRun ∧
    demoRun.sample_count ≤ MAX_SAMPLES :=
  ⟨rfl, c3_sample_count_never_exceeds true true [0, 0, 0, 0]
    [Op.start true, Op.data (some [5, 6]) 2] demoRun rfl⟩

lemma memWrite_length (buf d : List α) (s : Nat) (h : s + d.length ≤ buf.length) :
    (memWrite buf s d).length = buf.length := by
  simp [memWrite]
  omega

lemma memWrite_take (buf d : List α) (s : Nat) (h : s + d.length ≤ buf.length) :
    (memWrite buf s d).take (s + d.length) = buf.take s ++ d := by
  have hs : (buf.take s).length = s := List.length_take_of_le (by omega)
  rw [memWrite, List.append_assoc, List.take_append_eq_append_take,
      List.take_of_length_le (by rw [hs]; omega), hs]
  congr 1
  rw [Nat.add_sub_cancel_left]
  exact List.take_left d _

lemma memWrite_drop (buf d : List α) (s m : Nat) (h : s + d.length ≤ buf.length) :
    (memWrite buf s d).drop (s + d.length + m) = buf.drop (s + d.length + m) := by
  have hs : (buf.take s).length = s := List.length_take_of_le (by omega)
  rw [memWrite, List.append_assoc, List.drop_append_eq_append_drop,
      List.drop_eq_nil_of_le (by rw [hs]; omega), List.nil_append, hs,
      List.drop_append_eq_append_drop,
      List.drop_eq_nil_of_le (by omega), List.nil_append, List.drop_drop]
  congr 1
  omega

lemma deliverAll_spec (batches : List (List α)) (c : AudioCapture α)
    (hrec : c.recording = true)
    (hlen : c.buffer.length = MAX_SAMPLES)
    (hfit : c.sample_count + (batches.map List.length).sum < MAX_SAMPLES) :
    deliverAll (some c) batches =
      some { c with
        buffer := c.buffer.take c.sample_count ++ batches.flatten
                    ++ c.buffer.drop (c.sample_count + (batches.map List.length).sum)
        sample_count := c.sample_count + (batches.map List.length).sum
        callback_count := c.callback_count + batches.length } := by
  induction batches generalizing c with
  | nil =>
    simp [deliverAll, List.take_append_drop]
  | cons b bs ih =>
    have hsum : ((b :: bs).map List.length).sum
        = b.length + (bs.map List.length).sum := by simp
    rw [hsum] at hfit
    have hb : c.sample_count + b.length < MAX_SAMPLES := by omega
    have hle : c.sample_count + b.length ≤ c.buffer.length := by
      rw [hlen]; omega
    have hstep : deliverAll (some c) (b :: bs) =
        deliverAll (data_callback (some c) (some b) b.length) bs := rfl
    rw [hstep, data_callback_accepted c b b.length hrec hb, List.take_length]
    have h1len : (memWrite c.buffer c.sample_count b).length = MAX_SAMPLES := by
      rw [memWrite_length c.buffer b c.sample_count hle, hlen]
    have h1fit : (c.sample_count + b.length) + (bs.map List.length).sum
        < MAX_SAMPLES := by omega
    rw [ih { c with
        buffer := memWrite c.buffer c.sample_count b
        sample_count := c.sample_count + b.length
        callback_count := c.callback_count + 1 } hrec h1len h1fit]
    refine congrArg some ?_
    have hbuf : (memWrite c.buffer c.sample_count b).take (c.sample_count + b.length)
          ++ bs.flatten
          ++ (memWrite c.buffer c.sample_count b).drop
              (c.sample_count + b.length + (bs.map List.length).sum)
        = c.buffer.take c.sample_count ++ (b :: bs).flatten
          ++ c.buffer.drop (c.sample_count + ((b :: bs).map List.length).sum) := by
      rw [memWrite_take c.buffer b c.sample_count hle,
          memWrite_drop c.buffer b c.sample_count ((bs.map List.length).sum) hle,
          hsum]
      simp [List.append_assoc, Nat.add_assoc]
    have hsc : c.sample_count + b.length + (bs.map List.length).sum
        = c.sample_count + ((b :: bs).map List.length).sum := by
      rw [hsum]; omega
    have hcc : c.callback_count + 1 + bs.length
        = c.callback_count + (b :: bs).length := by
      simp only [List.length_cons]; omega
    rw [hbuf, hsc, hcc]

/-- C6: starting from a freshly started recording session, a sequence of
accepted deliveries (total strictly below capacity) leaves sampleCount
equal to the sum of the delivered frame counts and the buffer front of
that length equal to the concatenation of the batches in delivery
order. -/
theorem c6_buffer_concatenation (c : AudioCapture α) (batches : List (List α))
    (hrec : c.recording = true) (h0 : c.sample_count = 0)
    (hlen : c.buffer.length = MAX_SAMPLES)
    (hfit : (batches.map List.length).sum < MAX_SAMPLES) :
    ∃ c2, deliverAll (some c) batches = some c2 ∧
      c2.sample_count = (batches.map List.length).sum ∧
      c2.buffer.take c2.sample_count = batches.flatten := by
  have hfit2 : c.sample_count + (batches.map List.length).sum < MAX_SAMPLES := by
    omega
  refine ⟨_, deliverAll_spec batches c hrec hlen hfit2, by simp [h0], ?_⟩
  simp only [h0, List.take_zero, List.nil_append, Nat.zero_add]
  exact List.take_left' (List.length_flatten batches)

/-- Witness for C6: two batches totalling three samples land in delivery
order at the front of a full-size fresh session. -/
theorem c6_buffer_concatenation_witness :
    cEx.recording = true ∧ cEx.sample_count = 0 ∧
    cEx.buffer.length = MAX_SAMPLES ∧
    (([[1, 2], [3]] : List (List Int)).map List.length).sum < MAX_SAMPLES ∧
    (∃ c2, deliverAll (some cEx) [[1, 2], [3]] = some c2 ∧
      c2.sample_count = (([[1, 2], [3]] : List (List Int)).map List.length).sum ∧
      c2.buffer.take c2.sample_count = ([[1, 2], [3]] : List (List Int)).flatten) :=
  ⟨rfl, rfl, List.length_replicate MAX_SAMPLES 0, by decide,
   c6_buffer_concatenation cEx [[1, 2], [3]] rfl rfl
     (List.length_replicate MAX_SAMPLES 0) (by decide)⟩

end AudioCaptureModel
